import Mathlib

/-!
Verification of the Translatepal bot (src/main.py) against its
natural-language specification.

The embedding below translates the Python source into Lean:

* `USER_LANGUAGE` (a Python dict from user id to language code) becomes an
  association list `PrefStore` with `dictSet` / `dictGet` mirroring
  `d[k] = v` and `d.get(k, default)`.
* `SUPPORTED_LANGUAGES` and `DEFAULT_LANGUAGE` are copied verbatim.
* The handlers `set_language`, `handle_message` and `language_menu` become
  pure functions from their inputs (the current store, the update fields,
  and — for `handle_message` — the outcome of the single completion-API
  call, passed in as an `Except String (Option String)` value standing for
  "raised an exception with message e" / "returned `content`") to a
  `BotResult` recording the new store, the reply text, the keyboard, how
  many completion calls were issued, and the exact system prompt used.
* The Flask `webhook` endpoint becomes `webhook`, checking the
  `X-Telegram-Bot-Api-Secret-Token` header (an `Option String`: `none`
  when the header is missing, mirroring `request.headers.get`) against the
  configured secret before dispatching the parsed update.
-/

/-- `USER_LANGUAGE`: mapping from Telegram user id to chosen language code. -/
abbrev PrefStore := List (Nat × String)

/-- `store[k] = v` on a Python dict: overwrite the binding if the key is
present, else append it. -/
def dictSet (store : PrefStore) (k : Nat) (v : String) : PrefStore :=
  match store with
  | [] => [(k, v)]
  | (k1, v1) :: rest => if k1 = k then (k, v) :: rest else (k1, v1) :: dictSet rest k v

/-- `store.get(k)` on a Python dict: `none` when the key is absent. -/
def dictGet (store : PrefStore) (k : Nat) : Option String :=
  match store with
  | [] => none
  | (k1, v1) :: rest => if k1 = k then some v1 else dictGet rest k

/-- `SUPPORTED_LANGUAGES`: code, English name, native name, flag emoji, in
source (insertion) order. -/
def SUPPORTED_LANGUAGES : List (String × String × String × String) :=
  [ ("fa", "Persian (Farsi)", "فارسی", "🇮🇷"),
    ("fr", "French", "Français", "🇫🇷"),
    ("de", "German", "Deutsch", "🇩🇪"),
    ("es", "Spanish", "Español", "🇪🇸"),
    ("it", "Italian", "Italiano", "🇮🇹"),
    ("tr", "Turkish", "Türkçe", "🇹🇷"),
    ("ru", "Russian", "Русский", "🇷🇺"),
    ("ar", "Arabic", "العربية", "🇸🇦"),
    ("zh", "Chinese", "中文", "🇨🇳") ]

/-- `DEFAULT_LANGUAGE = "fa"`. -/
def DEFAULT_LANGUAGE : String := "fa"

/-- Is `pat` an initial segment of `s`? (Bool, executable.) -/
def leadsWith : List Char → List Char → Bool
  | [], _ => true
  | _ :: _, [] => false
  | a :: as, b :: bs => a = b && leadsWith as bs

/-- Python `s.startswith(pat)`, on the character lists of the strings. -/
def pyStartswith (s pat : String) : Bool :=
  leadsWith pat.data s.data

/-- Python `s.split(sep)` for a one-character separator, on character
lists: `"setlang|xx".split("|") = ["setlang", "xx"]`. -/
def splitChar (sep : Char) : List Char → List (List Char)
  | [] => [[]]
  | c :: cs =>
      if c = sep then [] :: splitChar sep cs
      else
        match splitChar sep cs with
        | [] => [[c]]
        | g :: gs => (c :: g) :: gs

/-- Python `s.split(sep)` for a one-character separator string. -/
def pySplit (s : String) (sep : Char) : List String :=
  (splitChar sep s.data).map (fun cs => String.mk cs)

/-- `SUPPORTED_LANGUAGES.get(code)`: first entry with the given code. -/
def langLookup : List (String × String × String × String) → String →
    Option (String × String × String)
  | [], _ => none
  | (c, en, nat, em) :: rest, code =>
      if c = code then some (en, nat, em) else langLookup rest code

/-- A Telegram inline keyboard button: display text and callback payload. -/
structure InlineKeyboardButton where
  text : String
  payload : String
deriving DecidableEq

/-- The result of running one handler: the preference store afterwards, the
reply text (if any), the inline keyboard attached to the reply (if any),
the number of completion-API calls issued, and the `(system, user)` message
pair sent to the completion API (when a call was issued). -/
structure BotResult where
  store : PrefStore
  reply : Option String
  keyboard : Option (List (List InlineKeyboardButton))
  apiCalls : Nat
  promptUsed : Option String
  userTurn : Option String
deriving DecidableEq

/-- A handler run that did nothing: store untouched, no reply, no call. -/
def noResult (store : PrefStore) : BotResult :=
  { store := store, reply := none, keyboard := none,
    apiCalls := 0, promptUsed := none, userTurn := none }

/-- The f-string system prompt of `handle_message`, with `target_lang`
spliced in between single quotes. -/
def mkSystemPrompt (target_lang : String) : String :=
  "\nYou are a professional translator bot.\nWhen a user sends a message in English, translate it into \x27" ++
  target_lang ++
  "\x27 using fluent, natural, native-level language—never literal. When a user sends a message in any other language, translate it into fluent, native-sounding English. Always adapt numbers, expressions, and cultural context to fit naturally. Never say anything else. Only reply with the translation—no explanations or comments.\n"

/-- The loop body of `language_menu`: accumulate buttons two per row;
after the loop a leftover incomplete row is appended. -/
def menuRows : List (String × String × String × String) →
    List (List InlineKeyboardButton) → List InlineKeyboardButton →
    List (List InlineKeyboardButton)
  | [], keyboard, row => if row = [] then keyboard else keyboard ++ [row]
  | (code, en_name, _native, emoji) :: rest, keyboard, row =>
      let row2 := row ++
        [{ text := emoji ++ " " ++ en_name, payload := "setlang|" ++ code }]
      if row2.length = 2 then menuRows rest (keyboard ++ [row2]) []
      else menuRows rest keyboard row2

/-- `language_menu`: reply with the selection prompt and the keyboard built
from `SUPPORTED_LANGUAGES`. No store mutation, no completion call. -/
def language_menu (store : PrefStore) : BotResult :=
  { store := store,
    reply := some "Please select your preferred language for translations:",
    keyboard := some (menuRows SUPPORTED_LANGUAGES [] []),
    apiCalls := 0, promptUsed := none, userTurn := none }

/-- `set_language`: callback-query handler. Returns early unless the
payload starts with "setlang|"; otherwise stores
`query.data.split("|")[1]` under `query.from_user.id` unconditionally and
replies with the confirmation template, with
`SUPPORTED_LANGUAGES.get(lang_code, ("Unknown", "", ""))` as the fallback
for unknown codes. The chat id is not consulted. -/
def set_language (store : PrefStore) (query_data : String)
    (from_user_id : Nat) (_chat_id : Nat) : BotResult :=
  if pyStartswith query_data "setlang|" then
    let lang_code := (pySplit query_data '|').getD 1 ""
    let info := (langLookup SUPPORTED_LANGUAGES lang_code).getD ("Unknown", "", "")
    { store := dictSet store from_user_id lang_code,
      reply := some ("Your preferred language has been set to: " ++
        info.2.2 ++ " " ++ info.1 ++ " (" ++ info.2.1 ++ ")"),
      keyboard := none, apiCalls := 0, promptUsed := none, userTurn := none }
  else
    noResult store

/-- `handle_message`: text-message handler. Looks up
`USER_LANGUAGE.get(user_id, DEFAULT_LANGUAGE)` keyed by
`update.effective_user.id` (`none` when there is no effective user, in
which case the dict lookup misses and the default applies), builds the
system prompt, and issues exactly one completion call whose outcome is
`chatOutcome`. An exception `e` is caught and answered with
"❌ Bot error: e"; an empty or missing completion content is answered
with the fixed apology; otherwise the content is the reply. The store is
never written. The chat id is not consulted. -/
def handle_message (store : PrefStore) (text : Option String)
    (effective_user_id : Option Nat) (_chat_id : Nat)
    (chatOutcome : Except String (Option String)) : BotResult :=
  match text with
  | none => noResult store
  | some user_message =>
    let target_lang :=
      match effective_user_id with
      | none => DEFAULT_LANGUAGE
      | some uid => (dictGet store uid).getD DEFAULT_LANGUAGE
    let system_prompt := mkSystemPrompt target_lang
    match chatOutcome with
    | Except.error e =>
        { store := store, reply := some ("❌ Bot error: " ++ e),
          keyboard := none, apiCalls := 1,
          promptUsed := some system_prompt, userTurn := some user_message }
    | Except.ok content =>
        match content with
        | some s =>
            if s = "" then
              { store := store,
                reply := some "❌ Sorry, I couldn\x27t generate a response.",
                keyboard := none, apiCalls := 1,
                promptUsed := some system_prompt, userTurn := some user_message }
            else
              { store := store, reply := some s,
                keyboard := none, apiCalls := 1,
                promptUsed := some system_prompt, userTurn := some user_message }
        | none =>
            { store := store,
              reply := some "❌ Sorry, I couldn\x27t generate a response.",
              keyboard := none, apiCalls := 1,
              promptUsed := some system_prompt, userTurn := some user_message }

/-- `start`: the /start command handler replies with the greeting. -/
def start (store : PrefStore) : BotResult :=
  { store := store,
    reply := some ("👋 Hello! I\x27m your AI translation assistant.\n\nSend any message in any language, and I\x27ll translate it for you!\n\nYou can /language to set your preferred target language for translations."),
    keyboard := none, apiCalls := 0, promptUsed := none, userTurn := none }

/-- A parsed Telegram update, as routed by the registered handlers:
either a text message (with optional text and optional effective user) or
a callback query carrying a payload string. -/
inductive TgUpdate where
  | textMessage (text : Option String) (userId : Option Nat) (chatId : Nat)
  | callbackQuery (query_data : String) (fromUserId : Nat) (chatId : Nat)

/-- `application.process_update`: dispatch per the registered handlers —
`CommandHandler("start", start)`, `CommandHandler("language",
language_menu)`, `CallbackQueryHandler(set_language, "^setlang\\|")`,
`MessageHandler(TEXT and not COMMAND, handle_message)`. -/
def process_update (store : PrefStore) (u : TgUpdate)
    (chatOutcome : Except String (Option String)) : BotResult :=
  match u with
  | TgUpdate.callbackQuery d uid chat =>
      if pyStartswith d "setlang|" then set_language store d uid chat
      else noResult store
  | TgUpdate.textMessage t uid chat =>
      match t with
      | none => noResult store
      | some s =>
          if pyStartswith s "/" then
            if s = "/start" then start store
            else if s = "/language" then language_menu store
            else noResult store
          else handle_message store (some s) uid chat chatOutcome

/-- The HTTP response of the `/webhook` endpoint plus the effect of the
dispatched update (if any). -/
structure WebhookResult where
  status : Nat
  result : BotResult
deriving DecidableEq

/-- `/webhook` (Flask route): reject with 403 unless the
`X-Telegram-Bot-Api-Secret-Token` header is present and equal to the
configured secret; reject with 400 when the body parses to no JSON;
otherwise, when the bot application is running, dispatch the update to the
background loop and answer 200. -/
def webhook (secretToken : String) (secretHeader : Option String)
    (jsonBody : Option TgUpdate) (appReady : Bool) (store : PrefStore)
    (chatOutcome : Except String (Option String)) : WebhookResult :=
  if secretHeader ≠ some secretToken then
    { status := 403, result := noResult store }
  else
    match jsonBody with
    | none => { status := 400, result := noResult store }
    | some u =>
        if appReady then
          { status := 200, result := process_update store u chatOutcome }
        else
          { status := 200, result := noResult store }

/-- Does `pat` occur as a contiguous substring of `s`? (Bool, executable;
used to check which words the generated prompt mentions.) -/
def occursIn (pat : List Char) : List Char → Bool
  | [] => leadsWith pat []
  | b :: bs => leadsWith pat (b :: bs) || occursIn pat bs

set_option maxRecDepth 8000

theorem dictGet_dictSet_self (s : PrefStore) (k : Nat) (v : String) :
    dictGet (dictSet s k v) k = some v := by
  induction s with
  | nil => simp [dictSet, dictGet]
  | cons hd tl ih =>
    obtain ⟨k1, v1⟩ := hd
    by_cases h : k1 = k
    · simp [dictSet, dictGet, h]
    · simp [dictSet, dictGet, h, ih]

theorem dictGet_dictSet_of_ne (s : PrefStore) (k k2 : Nat) (v : String)
    (h : k2 ≠ k) : dictGet (dictSet s k v) k2 = dictGet s k2 := by
  induction s with
  | nil => simp [dictSet, dictGet, Ne.symm h]
  | cons hd tl ih =>
    obtain ⟨k1, v1⟩ := hd
    by_cases h1 : k1 = k
    · subst h1
      simp [dictSet, dictGet, Ne.symm h]
    · by_cases h2 : k1 = k2 <;> simp [dictSet, dictGet, h1, h2, ih, h]

/-- C1 counterexample: a fresh sender (empty store, so no stored
preference, here for user 1) sends the English message "Hello"; the code
issues one completion call (not zero) and relays the completion content —
no instructional "please choose a language" reply exists on this path. -/
theorem no_pref_message_still_calls_api :
    dictGet [] 1 = none ∧
    (handle_message [] (some "Hello") (some 1) 42
        (Except.ok (some "Bonjour"))).apiCalls = 1 ∧
    (handle_message [] (some "Hello") (some 1) 42
        (Except.ok (some "Bonjour"))).reply = some "Bonjour" := by
  decide

/-- C1 amended: for every incoming text message whose sender has no stored
preference, the handler takes no special branch: it issues exactly one
completion call, leaves the store unchanged, and attaches no keyboard. -/
theorem handle_message_no_pref_one_call (store : PrefStore) (t : String)
    (u chat : Nat) (o : Except String (Option String))
    (h : dictGet store u = none) :
    (handle_message store (some t) (some u) chat o).apiCalls = 1 ∧
    (handle_message store (some t) (some u) chat o).store = store ∧
    (handle_message store (some t) (some u) chat o).keyboard = none := by
  cases o with
  | error e => simp [handle_message, h]
  | ok c =>
    cases c with
    | none => simp [handle_message, h]
    | some s =>
      by_cases hs : s = "" <;> simp [handle_message, h, hs]

/-- C1 witness: the amended theorem applied at a concrete fresh sender. -/
theorem handle_message_no_pref_one_call_witness :
    (handle_message [] (some "Hello") (some 3) 42
        (Except.ok (some "Bonjour"))).apiCalls = 1 ∧
    (handle_message [] (some "Hello") (some 3) 42
        (Except.ok (some "Bonjour"))).store = [] ∧
    (handle_message [] (some "Hello") (some 3) 42
        (Except.ok (some "Bonjour"))).keyboard = none :=
  handle_message_no_pref_one_call [] "Hello" 3 42
    (Except.ok (some "Bonjour")) (by decide)

/-- C2 counterexample: the callback payload "setlang|xx" carries a code
that is not in the supported set, yet the handler writes it into the
store (mutating it) and replies with the confirmation template (label
"Unknown"), not an "unknown language" refusal. -/
theorem set_language_invalid_code_mutates_store :
    langLookup SUPPORTED_LANGUAGES "xx" = none ∧
    (set_language [] "setlang|xx" 7 99).store = [(7, "xx")] ∧
    (set_language [] "setlang|xx" 7 99).store ≠ [] ∧
    (set_language [] "setlang|xx" 7 99).reply =
      some "Your preferred language has been set to:  Unknown ()" := by
  decide

/-- C2 amended: a selection callback whose code is not in the supported
set nevertheless overwrites the store entry with that code; the reply is
the confirmation template rendered with the fallback label "Unknown" and
empty native-name/emoji fields; no completion call is made. -/
theorem set_language_invalid_code_stores_it (store : PrefStore)
    (u chat : Nat) (d code : String)
    (h1 : pyStartswith d "setlang|" = true)
    (h2 : (pySplit d '|').getD 1 "" = code)
    (h3 : langLookup SUPPORTED_LANGUAGES code = none) :
    (set_language store d u chat).store = dictSet store u code ∧
    (set_language store d u chat).reply =
      some "Your preferred language has been set to:  Unknown ()" ∧
    (set_language store d u chat).apiCalls = 0 := by
  simp only [set_language, h1, if_true, h2, h3, Option.getD]
  exact ⟨trivial, rfl, trivial⟩

/-- C2 witness: the amended theorem at the concrete payload
"setlang|xx". -/
theorem set_language_invalid_code_stores_it_witness :
    (set_language [] "setlang|xx" 7 99).store = dictSet [] 7 "xx" ∧
    (set_language [] "setlang|xx" 7 99).reply =
      some "Your preferred language has been set to:  Unknown ()" ∧
    (set_language [] "setlang|xx" 7 99).apiCalls = 0 :=
  set_language_invalid_code_stores_it [] 7 99 "setlang|xx" "xx"
    (by decide) (by decide) (by decide)

/-- C3 counterexample: with stored preference "fr", the system prompt
built for an English message quotes the raw code \x27fr\x27 and never
mentions the full language name "French". -/
theorem prompt_uses_code_not_full_name :
    (handle_message [(1, "fr")] (some "Hello") (some 1) 5
        (Except.ok (some "x"))).promptUsed = some (mkSystemPrompt "fr") ∧
    occursIn "\x27fr\x27".data (mkSystemPrompt "fr").data = true ∧
    occursIn "French".data (mkSystemPrompt "fr").data = false := by
  decide

/-- C3 amended: for every conversation with a stored preference code `P`,
an incoming text message produces the system prompt with the raw code `P`
spliced between single quotes (the full language name is not used). -/
theorem handle_message_prompt_embeds_stored_code (store : PrefStore)
    (t code : String) (u chat : Nat) (o : Except String (Option String))
    (h : dictGet store u = some code) :
    (handle_message store (some t) (some u) chat o).promptUsed =
      some (mkSystemPrompt code) := by
  cases o with
  | error e => simp [handle_message, h]
  | ok c =>
    cases c with
    | none => simp [handle_message, h]
    | some s =>
      by_cases hs : s = "" <;> simp [handle_message, h, hs]

/-- C3 witness: the amended theorem at the stored preference "fr". -/
theorem handle_message_prompt_embeds_stored_code_witness :
    (handle_message [(1, "fr")] (some "Hello") (some 1) 5
        (Except.ok (some "x"))).promptUsed = some (mkSystemPrompt "fr") :=
  handle_message_prompt_embeds_stored_code [(1, "fr")] "Hello" "fr" 1 5
    (Except.ok (some "x")) (by decide)

/-- C4 counterexample: processing the non-English message "Bonjour tout le
monde" (spec scenario: detection would report "fr") leaves the empty store
empty — the store does not become `[(5, "fr")]` as the claim requires. -/
theorem non_english_message_does_not_autolearn :
    (handle_message [] (some "Bonjour tout le monde") (some 5) 9
        (Except.ok (some "Hello everyone"))).store = [] ∧
    (handle_message [] (some "Bonjour tout le monde") (some 5) 9
        (Except.ok (some "Hello everyone"))).store ≠ [(5, "fr")] := by
  decide

/-- C4 amended: `handle_message` never writes the preference store: for
every input and every completion outcome the store is returned unchanged
(there is no language detection or auto-learning in the code; only the
explicit selection callback writes the store). -/
theorem handle_message_preserves_store (store : PrefStore)
    (text : Option String) (uid : Option Nat) (chat : Nat)
    (o : Except String (Option String)) :
    (handle_message store text uid chat o).store = store := by
  cases text with
  | none => simp [handle_message, noResult]
  | some t =>
    cases o with
    | error e => simp [handle_message]
    | ok c =>
      cases c with
      | none => simp [handle_message]
      | some s =>
        by_cases hs : s = "" <;> simp [handle_message, hs]

/-- C5 counterexample: two different completion-API exceptions produce two
different user-visible replies (the exception text is interpolated), so
the failure reply is not one fixed apology string independent of the
error. -/
theorem failure_reply_depends_on_error_text :
    (handle_message [] (some "hi") (some 1) 2
        (Except.error "boom")).reply = some "❌ Bot error: boom" ∧
    (handle_message [] (some "hi") (some 1) 2
        (Except.error "zap")).reply = some "❌ Bot error: zap" ∧
    (handle_message [] (some "hi") (some 1) 2
        (Except.error "boom")).reply ≠
      (handle_message [] (some "hi") (some 1) 2
        (Except.error "zap")).reply := by
  decide

/-- C5 amended: a completion call that raises exception `e` is answered
with "❌ Bot error: " followed by the exception text (error-dependent); a
call that returns no content, or empty content, is answered with the fixed
apology "❌ Sorry, I couldn\x27t generate a response."; in each case
exactly one call is made — there is no retry. -/
theorem completion_failure_replies (store : PrefStore) (t e : String)
    (uid : Option Nat) (chat : Nat) :
    ((handle_message store (some t) uid chat (Except.error e)).reply =
        some ("❌ Bot error: " ++ e) ∧
      (handle_message store (some t) uid chat (Except.error e)).apiCalls = 1) ∧
    ((handle_message store (some t) uid chat (Except.ok none)).reply =
        some "❌ Sorry, I couldn\x27t generate a response." ∧
      (handle_message store (some t) uid chat (Except.ok none)).apiCalls = 1) ∧
    ((handle_message store (some t) uid chat (Except.ok (some ""))).reply =
        some "❌ Sorry, I couldn\x27t generate a response." ∧
      (handle_message store (some t) uid chat (Except.ok (some ""))).apiCalls = 1) := by
  refine ⟨⟨?_, ?_⟩, ⟨?_, ?_⟩, ⟨?_, ?_⟩⟩ <;> simp [handle_message]

/-- C6: a webhook POST whose shared-secret header is missing (`none`) or
different from the configured secret is answered with status 403, the
preference store is unchanged, no reply is produced and no completion
call is made. -/
theorem webhook_rejects_bad_secret (secretToken : String)
    (secretHeader : Option String) (jsonBody : Option TgUpdate)
    (appReady : Bool) (store : PrefStore)
    (o : Except String (Option String))
    (h : secretHeader ≠ some secretToken) :
    (webhook secretToken secretHeader jsonBody appReady store o).status = 403 ∧
    (webhook secretToken secretHeader jsonBody appReady store o).result.store = store ∧
    (webhook secretToken secretHeader jsonBody appReady store o).result.reply = none ∧
    (webhook secretToken secretHeader jsonBody appReady store o).result.apiCalls = 0 := by
  simp [webhook, h, noResult]

/-- C6 witness: a POST with the header absent is rejected with 403 and
leaves the store `[(3, "fr")]` untouched. -/
theorem webhook_rejects_bad_secret_witness :
    (webhook "sek" none (some (TgUpdate.textMessage (some "Hello") (some 1) 2))
        true [(3, "fr")] (Except.ok (some "x"))).status = 403 ∧
    (webhook "sek" none (some (TgUpdate.textMessage (some "Hello") (some 1) 2))
        true [(3, "fr")] (Except.ok (some "x"))).result.store = [(3, "fr")] ∧
    (webhook "sek" none (some (TgUpdate.textMessage (some "Hello") (some 1) 2))
        true [(3, "fr")] (Except.ok (some "x"))).result.reply = none ∧
    (webhook "sek" none (some (TgUpdate.textMessage (some "Hello") (some 1) 2))
        true [(3, "fr")] (Except.ok (some "x"))).result.apiCalls = 0 :=
  webhook_rejects_bad_secret "sek" none
    (some (TgUpdate.textMessage (some "Hello") (some 1) 2)) true [(3, "fr")]
    (Except.ok (some "x")) (by decide)

/-- C7 counterexample: the first button of the generated menu carries the
callback payload "setlang|fa", which is not of the form `lang|<code>`. -/
theorem menu_payload_not_lang_form :
    ((menuRows SUPPORTED_LANGUAGES [] []).headD []).headD ⟨"", ""⟩ =
      { text := "🇮🇷 Persian (Farsi)", payload := "setlang|fa" } ∧
    pyStartswith "setlang|fa" "lang|" = false ∧
    "setlang|fa" ≠ "lang|" ++ "fa" := by
  decide

/-- C7 amended: the menu keyboard enumerates every supported language, in
table order, as buttons with payload `setlang|<code>` and label
`<emoji> <english name>`, grouped two per row (the odd ninth entry forms a
final single-button row); no completion call is made. -/
theorem menu_two_per_row_all_languages (store : PrefStore) :
    (language_menu store).keyboard = some (menuRows SUPPORTED_LANGUAGES [] []) ∧
    (menuRows SUPPORTED_LANGUAGES [] []).flatten =
      SUPPORTED_LANGUAGES.map (fun l =>
        { text := l.2.2.2 ++ " " ++ l.2.1, payload := "setlang|" ++ l.1 }) ∧
    (menuRows SUPPORTED_LANGUAGES [] []).map List.length = [2, 2, 2, 2, 1] ∧
    (language_menu store).apiCalls = 0 :=
  ⟨rfl, by decide, by decide, rfl⟩

/-- C8: writing "fr" for a conversation id and reading it back returns
"fr"; in general a `set` is visible to a later `get` of the same key, also
after an intervening `set` under a different key. -/
theorem pref_set_get_roundtrip (s : PrefStore) (conversation_id : Nat) :
    dictGet (dictSet s conversation_id "fr") conversation_id = some "fr" ∧
    (∀ v : String, dictGet (dictSet s conversation_id v) conversation_id = some v) ∧
    (∀ (k2 : Nat) (v v2 : String), k2 ≠ conversation_id →
      dictGet (dictSet (dictSet s conversation_id v) k2 v2) conversation_id =
        some v) := by
  refine ⟨dictGet_dictSet_self s conversation_id "fr",
    fun v => dictGet_dictSet_self s conversation_id v,
    fun k2 v v2 h => ?_⟩
  rw [dictGet_dictSet_of_ne _ _ _ _ (Ne.symm h)]
  exact dictGet_dictSet_self s conversation_id v

/-- C8 witness: the round trip at key 1 on the empty store, with an
intervening write under key 2. -/
theorem pref_set_get_roundtrip_witness :
    dictGet (dictSet [] 1 "fr") 1 = some "fr" ∧
    dictGet (dictSet (dictSet [] 1 "de") 2 "zh") 1 = some "de" :=
  ⟨(pref_set_get_roundtrip [] 1).1,
    (pref_set_get_roundtrip [] 1).2.2 2 "de" "zh" (by decide)⟩

/-- C9: when the sender has no stored preference, `handle_message` uses
`DEFAULT_LANGUAGE = "fa"` in the system prompt and still issues exactly
one completion call — there is no no-preference branch. -/
theorem handle_message_defaults_to_fa (store : PrefStore) (t : String)
    (u chat : Nat) (o : Except String (Option String))
    (h : dictGet store u = none) :
    (handle_message store (some t) (some u) chat o).promptUsed =
      some (mkSystemPrompt DEFAULT_LANGUAGE) ∧
    DEFAULT_LANGUAGE = "fa" ∧
    (handle_message store (some t) (some u) chat o).apiCalls = 1 := by
  refine ⟨?_, rfl, ?_⟩ <;>
  · cases o with
    | error e => simp [handle_message, h]
    | ok c =>
      cases c with
      | none => simp [handle_message, h]
      | some s => by_cases hs : s = "" <;> simp [handle_message, h, hs]

/-- C9 witness: a fresh sender (empty store) gets the "fa" prompt and one
completion call. -/
theorem handle_message_defaults_to_fa_witness :
    (handle_message [] (some "Hello") (some 1) 2
        (Except.ok (some "Bonjour"))).promptUsed =
      some (mkSystemPrompt DEFAULT_LANGUAGE) ∧
    DEFAULT_LANGUAGE = "fa" ∧
    (handle_message [] (some "Hello") (some 1) 2
        (Except.ok (some "Bonjour"))).apiCalls = 1 :=
  handle_message_defaults_to_fa [] "Hello" 1 2 (Except.ok (some "Bonjour"))
    (by decide)

/-- C10: both handlers are insensitive to the chat id — their entire
results agree across chats — and the preference mapping is keyed by the
sending user id in both: a preference set by user `u` via a callback in
one chat is the one `handle_message` uses for the next message from `u`
in any other chat. -/
theorem preference_keyed_by_user_id (store : PrefStore) (d t code : String)
    (u chat1 chat2 : Nat) (o : Except String (Option String))
    (h1 : pyStartswith d "setlang|" = true)
    (h2 : (pySplit d '|').getD 1 "" = code) :
    set_language store d u chat1 = set_language store d u chat2 ∧
    handle_message store (some t) (some u) chat1 o =
      handle_message store (some t) (some u) chat2 o ∧
    (handle_message (set_language store d u chat1).store (some t) (some u)
        chat2 o).promptUsed = some (mkSystemPrompt code) := by
  refine ⟨rfl, rfl, ?_⟩
  have hstore : (set_language store d u chat1).store = dictSet store u code := by
    simp only [set_language, h1, if_true, h2]
  rw [hstore]
  have hg : dictGet (dictSet store u code) u = some code :=
    dictGet_dictSet_self store u code
  cases o with
  | error e => simp [handle_message, hg]
  | ok c =>
    cases c with
    | none => simp [handle_message, hg]
    | some s => by_cases hs : s = "" <;> simp [handle_message, hg, hs]

/-- C10 witness: user 5 selects "fr" in chat 100; their next message in
chat 200 is translated with the "fr" prompt. -/
theorem preference_keyed_by_user_id_witness :
    (handle_message (set_language [] "setlang|fr" 5 100).store (some "Hello")
        (some 5) 200 (Except.ok (some "Bonjour"))).promptUsed =
      some (mkSystemPrompt "fr") :=
  (preference_keyed_by_user_id [] "setlang|fr" "Hello" "fr" 5 100 200
    (Except.ok (some "Bonjour")) (by decide) (by decide)).2.2
